import Mathlib

/-!
Verification of the AgentGate Python SDK client against its specification.

Embedded source files: `src/sdk/python/src/agentgate/errors.py`,
`src/sdk/python/src/agentgate/types.py`, `src/sdk/python/src/agentgate/client.py`.

Modelling conventions:
* JSON values decoded by `resp.json()` are modelled by `Json`.  Python `None`
  and JSON `null` coincide (`Json.null`), matching `dict.get` semantics on
  decoded response bodies (an absent key and `dict.get(k)` both give `None`).
* The HTTP transport collaborator (`httpx.AsyncClient.request`) is modelled as
  an infinite trace of per-attempt outcomes `Nat → Outcome`: attempt `i`
  observes `trace i`.  The JSON request body built by the client only flows to
  the transport, so it does not influence the retry core and is not threaded
  through it.
* Exception text produced by the Python runtime (e.g. the message of an
  `AttributeError`) is environment dependent; it is abstracted by a fixed
  string where it occurs, since no observable contract depends on it.
-/

/-- A JSON value as decoded by `resp.json()`.  JSON numbers are modelled as
integers (no claim computes with non-integer numbers).  Objects keep their
key order; Python dicts never contain duplicate keys. -/
inductive Json where
  | null : Json
  | bool : Bool → Json
  | num : Int → Json
  | str : String → Json
  | arr : List Json → Json
  | obj : List (String × Json) → Json

/-- Python `data.get(key, d)` on a decoded JSON object given as its key-value
list: the stored value when the key is present (even when that value is
`null`), the default `d` otherwise. -/
def dictGet (kvs : List (String × Json)) (key : String) (d : Json) : Json :=
  (List.lookup key kvs).getD d

/-- `errors.py`: `AgentGateError`.  `message` is whatever value was passed to
the constructor (the code can pass a non-string taken from the error body, so
it is a `Json`); `error_type` is `error_info.get("type")`, where Python `None`
is `Json.null`. -/
structure AgentGateError where
  message : Json
  status_code : Option Nat := none
  error_type : Json := Json.null
  response_data : Option Json := none
  is_connectivity_error : Bool := false

/-- `types.py`: `FallbackBehavior`. -/
inductive FallbackBehavior where
  | allow : FallbackBehavior
  | deny : FallbackBehavior

/-- `types.py`: dataclass `ApprovalRequest`.  Field values are dynamic Python
values (the dataclass does not enforce its annotations), hence `Json`;
defaults are the dataclass defaults. -/
structure ApprovalRequest where
  id : Json
  action : Json
  status : Json
  decision : Json := Json.null
  params : Json := Json.obj []
  context : Json := Json.obj []
  urgency : Json := Json.str "normal"
  decided_by : Json := Json.null
  decided_at : Json := Json.null
  expires_at : Json := Json.null
  created_at : Json := Json.null
  updated_at : Json := Json.null
  raw : Json := Json.obj []

/-- `types.py`: `ApprovalRequest.from_response`. -/
def ApprovalRequest.from_response (data : List (String × Json)) : ApprovalRequest :=
  { id := dictGet data "id" (Json.str "")
    action := dictGet data "action" (Json.str "")
    status := dictGet data "status" (Json.str "pending")
    decision := dictGet data "decision" Json.null
    params := dictGet data "params" (Json.obj [])
    context := dictGet data "context" (Json.obj [])
    urgency := dictGet data "urgency" (Json.str "normal")
    decided_by := dictGet data "decidedBy" Json.null
    decided_at := dictGet data "decidedAt" Json.null
    expires_at := dictGet data "expiresAt" Json.null
    created_at := dictGet data "createdAt" Json.null
    updated_at := dictGet data "updatedAt" Json.null
    raw := Json.obj data }

/-- `types.py`: dataclass `Policy`. -/
structure Policy where
  id : Json
  name : Json
  rules : Json := Json.arr []
  priority : Json := Json.num 0
  enabled : Json := Json.bool true
  raw : Json := Json.obj []

/-- `types.py`: `Policy.from_response`. -/
def Policy.from_response (data : List (String × Json)) : Policy :=
  { id := dictGet data "id" (Json.str "")
    name := dictGet data "name" (Json.str "")
    rules := dictGet data "rules" (Json.arr [])
    priority := dictGet data "priority" (Json.num 0)
    enabled := dictGet data "enabled" (Json.bool true)
    raw := Json.obj data }

/-- `types.py`: dataclass `DecisionResult`. -/
structure DecisionResult where
  id : Json
  status : Json
  decision : Json := Json.null
  is_decided : Bool := false

/-- Python `status in ("approved", "denied", "expired")`: a dynamic value
equals one of these strings only when it is that string. -/
def isDecidedStatus : Json → Bool
  | Json.str s => s == "approved" || s == "denied" || s == "expired"
  | _ => false

/-- `types.py`: `DecisionResult.from_response`. -/
def DecisionResult.from_response (data : List (String × Json)) : DecisionResult :=
  { id := dictGet data "id" (Json.str "")
    status := dictGet data "status" (Json.str "pending")
    decision := dictGet data "decision" Json.null
    is_decided := isDecidedStatus (dictGet data "status" (Json.str "pending")) }

/-- One outcome of the transport collaborator for one attempt:
a response with a status code and decoded JSON body, a connection/timeout
error (`httpx.ConnectError`, `httpx.TimeoutException`, `httpx.ConnectTimeout`)
carrying its text, or any other exception carrying its text. -/
inductive Outcome where
  | response : Nat → Json → Outcome
  | connError : String → Outcome
  | otherError : String → Outcome

/-- What `_request` does: return decoded JSON, raise `AgentGateError`, or (on
the statically unreachable loop fall-through) raise
`RuntimeError("Retry loop exhausted unexpectedly")`. -/
inductive RequestResult where
  | ok : Json → RequestResult
  | err : AgentGateError → RequestResult
  | runtimeErr : RequestResult

/-- Result of one `_request` run together with what the transport observed:
`attempts` is the number of transport calls made, `sleeps` the backoff sleeps
performed, in order. -/
structure ExecResult where
  result : RequestResult
  attempts : Nat
  sleeps : List ℚ

namespace AgentGateClient

/-- `client.py` line 36: `_RETRY_BACKOFFS = [0.5, 1.0, 2.0]`. -/
def _RETRY_BACKOFFS : List ℚ := [0.5, 1.0, 2.0]

/-- `client.py` line 37: `_RETRYABLE_STATUS = {500, 502, 503, 504}`. -/
def _RETRYABLE_STATUS : List Nat := [500, 502, 503, 504]

/-- `client.py` line 38: `_CLIENT_ERROR_STATUS = {400, 401, 403}`. -/
def _CLIENT_ERROR_STATUS : List Nat := [400, 401, 403]

/-- The `error_info` that the error-parsing code in `_request` ends up calling
`.get` on, for a response body `data`:
`error_info = data.get("error", {}) if isinstance(data, dict) else {}`.
`none` marks the case where `error_info` is not a dict (the body is a dict
whose `"error"` value is a non-dict), so that `error_info.get(...)` raises
`AttributeError` instead of producing an error description. -/
def error_info_of (data : Json) : Option (List (String × Json)) :=
  match data with
  | Json.obj kvs =>
    match List.lookup "error" kvs with
    | none => some []
    | some (Json.obj info) => some info
    | some _ => none
  | _ => some []

/-- The `except Exception` wrap of the `AttributeError` raised by
`error_info.get` when `error_info` is not a dict:
`AgentGateError(f"Unexpected error: {exc}", is_connectivity_error=True)`.
The interpolated exception text is abstracted. -/
def attribute_error_wrap : AgentGateError :=
  { message := Json.str "Unexpected error: AttributeError"
    status_code := none
    error_type := Json.null
    response_data := none
    is_connectivity_error := true }

/-- The `AgentGateError` produced by the two identical `≥ 400` error-raising
blocks in `_request` for status `status` and body `data` — or, when parsing
the error body raises `AttributeError`, the connectivity-flagged wrap that the
trailing `except Exception` produces instead. -/
def http_error_result (status : Nat) (data : Json) : AgentGateError :=
  match error_info_of data with
  | some info =>
    { message := dictGet info "message" (Json.str ("HTTP " ++ toString status))
      status_code := some status
      error_type := dictGet info "type" Json.null
      response_data := some data
      is_connectivity_error := false }
  | none => attribute_error_wrap

/-- The retry loop of `_request` (`for attempt in range(1 + len(backoffs))`),
with the iteration count as structural fuel: `loop backoffs trace iters
attempt lastExc` runs the remaining `iters` iterations starting at attempt
index `attempt` with `last_exc = lastExc`.  Fuel 0 is the fall-through after
the `for` loop: `raise AgentGateError(f"Connection failed after retries:
{last_exc}", ...)` when `last_exc` is set, else the `RuntimeError`. -/
def loop (backoffs : List ℚ) (trace : Nat → Outcome) :
    Nat → Nat → Option String → ExecResult
  | 0, attempt, lastExc =>
    match lastExc with
    | some m =>
      { result := RequestResult.err
          { message := Json.str ("Connection failed after retries: " ++ m)
            status_code := none
            error_type := Json.null
            response_data := none
            is_connectivity_error := true }
        attempts := attempt
        sleeps := [] }
    | none => { result := RequestResult.runtimeErr, attempts := attempt, sleeps := [] }
  | iters + 1, attempt, lastExc =>
    match trace attempt with
    | Outcome.response status body =>
      if status ∈ _CLIENT_ERROR_STATUS then
        { result := RequestResult.err (http_error_result status body)
          attempts := attempt + 1
          sleeps := [] }
      else if status ∈ _RETRYABLE_STATUS ∧ attempt < backoffs.length then
        let rest := loop backoffs trace iters (attempt + 1) lastExc
        { result := rest.result
          attempts := rest.attempts
          sleeps := backoffs.getD attempt 0 :: rest.sleeps }
      else if 400 ≤ status then
        { result := RequestResult.err (http_error_result status body)
          attempts := attempt + 1
          sleeps := [] }
      else
        { result := RequestResult.ok body, attempts := attempt + 1, sleeps := [] }
    | Outcome.connError msg =>
      if attempt < backoffs.length then
        let rest := loop backoffs trace iters (attempt + 1) (some msg)
        { result := rest.result
          attempts := rest.attempts
          sleeps := backoffs.getD attempt 0 :: rest.sleeps }
      else
        { result := RequestResult.err
            { message := Json.str ("Connection failed: " ++ msg)
              status_code := none
              error_type := Json.null
              response_data := none
              is_connectivity_error := true }
          attempts := attempt + 1
          sleeps := [] }
    | Outcome.otherError msg =>
      { result := RequestResult.err
          { message := Json.str ("Unexpected error: " ++ msg)
            status_code := none
            error_type := Json.null
            response_data := none
            is_connectivity_error := true }
        attempts := attempt + 1
        sleeps := [] }

/-- `client.py`: `AgentGateClient._request`, parameterised by the configured
`max_retries` and the transport trace.
`backoffs = _RETRY_BACKOFFS[:max_retries]`; the loop runs
`range(1 + len(backoffs))` iterations starting at attempt 0 with
`last_exc = None`. -/
def _request (max_retries : Nat) (trace : Nat → Outcome) : ExecResult :=
  loop (_RETRY_BACKOFFS.take max_retries) trace
    ((_RETRY_BACKOFFS.take max_retries).length + 1) 0 none

/-- `client.py`: `AgentGateClient.request_approval`, parameterised by the
transport trace.  The request body it builds only flows to the transport, so
it is not an argument.  `none` models a raised exception that is not an
`AgentGateError` (decoding a non-dict success body raises `AttributeError`
outside `_request`; `RequestResult.runtimeErr` is also not an
`AgentGateError`). -/
def request_approval (max_retries : Nat) (trace : Nat → Outcome) :
    Option (Except AgentGateError ApprovalRequest) :=
  match (_request max_retries trace).result with
  | RequestResult.ok data =>
    match data with
    | Json.obj kvs => some (Except.ok (ApprovalRequest.from_response kvs))
    | _ => none
  | RequestResult.err e => some (Except.error e)
  | RequestResult.runtimeErr => none

/-- `client.py`: `AgentGateClient._fallback_request`. -/
def _fallback_request (fallback : FallbackBehavior) (action : String)
    (params context : Option (List (String × Json))) : ApprovalRequest :=
  { id := Json.str "fallback"
    action := Json.str action
    status := Json.str (match fallback with
      | FallbackBehavior.allow => "approved"
      | FallbackBehavior.deny => "denied")
    decision := Json.str (match fallback with
      | FallbackBehavior.allow => "approved"
      | FallbackBehavior.deny => "denied")
    params := Json.obj (params.getD [])
    context := Json.obj (context.getD [])
    raw := Json.obj [("_fallback", Json.bool true)] }

/-- `client.py`: `AgentGateClient.request_approval_safe`: delegate to
`request_approval`; on an `AgentGateError` with the connectivity flag set,
return `_fallback_request` instead of raising; re-raise any other
`AgentGateError`; any non-`AgentGateError` exception (`none`) propagates. -/
def request_approval_safe (fallback : FallbackBehavior) (max_retries : Nat)
    (action : String) (params context : Option (List (String × Json)))
    (trace : Nat → Outcome) : Option (Except AgentGateError ApprovalRequest) :=
  match request_approval max_retries trace with
  | some (Except.error e) =>
    if e.is_connectivity_error then
      some (Except.ok (_fallback_request fallback action params context))
    else some (Except.error e)
  | other => other

/-- `client.py`: `AgentGateClient.check_decision`, parameterised by the
transport trace. -/
def check_decision (max_retries : Nat) (trace : Nat → Outcome) :
    Option (Except AgentGateError DecisionResult) :=
  match (_request max_retries trace).result with
  | RequestResult.ok data =>
    match data with
    | Json.obj kvs => some (Except.ok (DecisionResult.from_response kvs))
    | _ => none
  | RequestResult.err e => some (Except.error e)
  | RequestResult.runtimeErr => none

/-- Decoding of each element of the policies list:
`[Policy.from_response(p) for p in policies]`.  `none` models the exception
Python raises when an element is not a dict. -/
def decodePolicyList : List Json → Option (List Policy)
  | [] => some []
  | Json.obj kvs :: rest =>
    (decodePolicyList rest).map (fun ps => Policy.from_response kvs :: ps)
  | _ :: _ => none

/-- The response-shape normalisation in `list_policies`: a bare array is
decoded directly; otherwise
`policies = data.get("policies", data.get("data", []))` is decoded.  `none`
models the exception Python raises when `data` is neither a list nor a dict,
or when the selected value is not a list of dicts. -/
def decodePolicies (data : Json) : Option (List Policy) :=
  match data with
  | Json.arr ps => decodePolicyList ps
  | Json.obj kvs =>
    match dictGet kvs "policies" (dictGet kvs "data" (Json.arr [])) with
    | Json.arr ps => decodePolicyList ps
    | _ => none
  | _ => none

/-- `client.py`: `AgentGateClient.list_policies`, parameterised by the
transport trace. -/
def list_policies (max_retries : Nat) (trace : Nat → Outcome) :
    Option (Except AgentGateError (List Policy)) :=
  match (_request max_retries trace).result with
  | RequestResult.ok data => (decodePolicies data).map Except.ok
  | RequestResult.err e => some (Except.error e)
  | RequestResult.runtimeErr => none

end AgentGateClient

open AgentGateClient

/-- Claim C7: for every input mapping in which the optional fields are
missing, `ApprovalRequest.from_response`, `Policy.from_response` and
`DecisionResult.from_response` (total functions, so they never fail)
substitute the documented defaults: status `"pending"`, urgency `"normal"`,
params/context/rules empty containers, enabled `true`, priority `0`, and all
optional timestamp/identity fields absent (`None`). -/
theorem C7_decoder_defaults (kvs : List (String × Json))
    (h1 : List.lookup "status" kvs = none) (h2 : List.lookup "decision" kvs = none)
    (h3 : List.lookup "params" kvs = none) (h4 : List.lookup "context" kvs = none)
    (h5 : List.lookup "urgency" kvs = none) (h6 : List.lookup "decidedBy" kvs = none)
    (h7 : List.lookup "decidedAt" kvs = none) (h8 : List.lookup "expiresAt" kvs = none)
    (h9 : List.lookup "createdAt" kvs = none) (h10 : List.lookup "updatedAt" kvs = none)
    (h11 : List.lookup "rules" kvs = none) (h12 : List.lookup "priority" kvs = none)
    (h13 : List.lookup "enabled" kvs = none) :
    (ApprovalRequest.from_response kvs).status = Json.str "pending" ∧
    (ApprovalRequest.from_response kvs).urgency = Json.str "normal" ∧
    (ApprovalRequest.from_response kvs).params = Json.obj [] ∧
    (ApprovalRequest.from_response kvs).context = Json.obj [] ∧
    (ApprovalRequest.from_response kvs).decision = Json.null ∧
    (ApprovalRequest.from_response kvs).decided_by = Json.null ∧
    (ApprovalRequest.from_response kvs).decided_at = Json.null ∧
    (ApprovalRequest.from_response kvs).expires_at = Json.null ∧
    (ApprovalRequest.from_response kvs).created_at = Json.null ∧
    (ApprovalRequest.from_response kvs).updated_at = Json.null ∧
    (Policy.from_response kvs).rules = Json.arr [] ∧
    (Policy.from_response kvs).priority = Json.num 0 ∧
    (Policy.from_response kvs).enabled = Json.bool true ∧
    (DecisionResult.from_response kvs).status = Json.str "pending" ∧
    (DecisionResult.from_response kvs).decision = Json.null := by
  simp [ApprovalRequest.from_response, Policy.from_response, DecisionResult.from_response,
    dictGet, h1, h2, h3, h4, h5, h6, h7, h8, h9, h10, h11, h12, h13]

/-- Witness for C7 at the concrete mapping of the spec example,
`data = \x7b"id": "x", "action": "y"\x7d`. -/
theorem C7_decoder_defaults_witness :
    (ApprovalRequest.from_response [("id", Json.str "x"), ("action", Json.str "y")]).status
      = Json.str "pending" ∧
    (ApprovalRequest.from_response [("id", Json.str "x"), ("action", Json.str "y")]).urgency
      = Json.str "normal" ∧
    (ApprovalRequest.from_response [("id", Json.str "x"), ("action", Json.str "y")]).params
      = Json.obj [] ∧
    (ApprovalRequest.from_response [("id", Json.str "x"), ("action", Json.str "y")]).context
      = Json.obj [] ∧
    (ApprovalRequest.from_response [("id", Json.str "x"), ("action", Json.str "y")]).decision
      = Json.null ∧
    (ApprovalRequest.from_response [("id", Json.str "x"), ("action", Json.str "y")]).decided_by
      = Json.null ∧
    (ApprovalRequest.from_response [("id", Json.str "x"), ("action", Json.str "y")]).decided_at
      = Json.null ∧
    (ApprovalRequest.from_response [("id", Json.str "x"), ("action", Json.str "y")]).expires_at
      = Json.null ∧
    (ApprovalRequest.from_response [("id", Json.str "x"), ("action", Json.str "y")]).created_at
      = Json.null ∧
    (ApprovalRequest.from_response [("id", Json.str "x"), ("action", Json.str "y")]).updated_at
      = Json.null ∧
    (Policy.from_response [("id", Json.str "x"), ("action", Json.str "y")]).rules
      = Json.arr [] ∧
    (Policy.from_response [("id", Json.str "x"), ("action", Json.str "y")]).priority
      = Json.num 0 ∧
    (Policy.from_response [("id", Json.str "x"), ("action", Json.str "y")]).enabled
      = Json.bool true ∧
    (DecisionResult.from_response [("id", Json.str "x"), ("action", Json.str "y")]).status
      = Json.str "pending" ∧
    (DecisionResult.from_response [("id", Json.str "x"), ("action", Json.str "y")]).decision
      = Json.null :=
  C7_decoder_defaults [("id", Json.str "x"), ("action", Json.str "y")]
    rfl rfl rfl rfl rfl rfl rfl rfl rfl rfl rfl rfl rfl

/-- Claim C10: the decoders substitute defaults only for absent keys, not for
keys present with a `null` value.  For every mapping, each optional field that
the mapping binds to `null` decodes to `None`/`null` in the corresponding
record (one implication per field, so any single field may be bound to `null`
on its own), and a `null` status makes `DecisionResult.is_decided` false. -/
theorem C10_null_not_defaulted (kvs : List (String × Json)) :
    (List.lookup "status" kvs = some Json.null →
      (ApprovalRequest.from_response kvs).status = Json.null) ∧
    (List.lookup "decision" kvs = some Json.null →
      (ApprovalRequest.from_response kvs).decision = Json.null) ∧
    (List.lookup "params" kvs = some Json.null →
      (ApprovalRequest.from_response kvs).params = Json.null) ∧
    (List.lookup "context" kvs = some Json.null →
      (ApprovalRequest.from_response kvs).context = Json.null) ∧
    (List.lookup "urgency" kvs = some Json.null →
      (ApprovalRequest.from_response kvs).urgency = Json.null) ∧
    (List.lookup "rules" kvs = some Json.null →
      (Policy.from_response kvs).rules = Json.null) ∧
    (List.lookup "priority" kvs = some Json.null →
      (Policy.from_response kvs).priority = Json.null) ∧
    (List.lookup "enabled" kvs = some Json.null →
      (Policy.from_response kvs).enabled = Json.null) ∧
    (List.lookup "status" kvs = some Json.null →
      (DecisionResult.from_response kvs).status = Json.null ∧
      (DecisionResult.from_response kvs).is_decided = false) ∧
    (List.lookup "decision" kvs = some Json.null →
      (DecisionResult.from_response kvs).decision = Json.null) := by
  refine ⟨?_, ?_, ?_, ?_, ?_, ?_, ?_, ?_, ?_, ?_⟩ <;> intro h <;>
    simp [ApprovalRequest.from_response, Policy.from_response,
      DecisionResult.from_response, dictGet, isDecidedStatus, h]

/-- Decoding a list of JSON objects succeeds and maps `Policy.from_response`
over it. -/
theorem decodePolicyList_map (ps : List (List (String × Json))) :
    decodePolicyList (ps.map Json.obj) = some (ps.map Policy.from_response) := by
  induction ps with
  | nil => rfl
  | cons p rest ih => simp [decodePolicyList, ih]

/-- Claim C8: for every list of policy objects `ps`, `list_policies` decodes
the response body given as the bare array `ps`, as `\x7b"policies": ps\x7d`, and
as `\x7b"data": ps\x7d` to the same normalized sequence, elementwise
`Policy.from_response` of `ps`. -/
theorem C8_list_policies_shapes (max_retries : Nat) (ps : List (List (String × Json))) :
    list_policies max_retries
        (fun _ => Outcome.response 200 (Json.arr (ps.map Json.obj)))
      = some (Except.ok (ps.map Policy.from_response)) ∧
    list_policies max_retries
        (fun _ => Outcome.response 200 (Json.obj [("policies", Json.arr (ps.map Json.obj))]))
      = some (Except.ok (ps.map Policy.from_response)) ∧
    list_policies max_retries
        (fun _ => Outcome.response 200 (Json.obj [("data", Json.arr (ps.map Json.obj))]))
      = some (Except.ok (ps.map Policy.from_response)) := by
  refine ⟨?_, ?_, ?_⟩ <;>
    simp [list_policies, _request, loop, decodePolicies, dictGet, List.lookup,
      _CLIENT_ERROR_STATUS, _RETRYABLE_STATUS, decodePolicyList_map]

/-- Witness for C10 at the claim's own example mappings: a mapping that binds
only `params` to `null` (its other optional fields absent), and the mapping
binding only `status` to `null`. -/
theorem C10_null_not_defaulted_witness :
    (ApprovalRequest.from_response
      [("id", Json.str "x"), ("action", Json.str "y"), ("params", Json.null)]).params
      = Json.null ∧
    (DecisionResult.from_response [("status", Json.null)]).status = Json.null ∧
    (DecisionResult.from_response [("status", Json.null)]).is_decided = false := by
  obtain ⟨-, -, hp, -, -, -, -, -, -, -⟩ := C10_null_not_defaulted
    [("id", Json.str "x"), ("action", Json.str "y"), ("params", Json.null)]
  obtain ⟨-, -, -, -, -, -, -, -, hs, -⟩ := C10_null_not_defaulted [("status", Json.null)]
  exact ⟨hp rfl, (hs rfl).1, (hs rfl).2⟩

/-- Claim C2: when `request_approval` raises an error whose connectivity flag
is set, `request_approval_safe` returns (instead of raising) a synthetic
`ApprovalRequest` with id `"fallback"`, the given action, the given-or-empty
params and context, and status and decision both `"denied"` under fallback
behavior deny, both `"approved"` under fallback behavior allow. -/
theorem C2_connectivity_fallback (max_retries : Nat) (action : String)
    (params context : Option (List (String × Json))) (trace : Nat → Outcome)
    (e : AgentGateError)
    (h1 : request_approval max_retries trace = some (Except.error e))
    (h2 : e.is_connectivity_error = true) :
    request_approval_safe FallbackBehavior.deny max_retries action params context trace
      = some (Except.ok
          { id := Json.str "fallback"
            action := Json.str action
            status := Json.str "denied"
            decision := Json.str "denied"
            params := Json.obj (params.getD [])
            context := Json.obj (context.getD [])
            urgency := Json.str "normal"
            decided_by := Json.null
            decided_at := Json.null
            expires_at := Json.null
            created_at := Json.null
            updated_at := Json.null
            raw := Json.obj [("_fallback", Json.bool true)] }) ∧
    request_approval_safe FallbackBehavior.allow max_retries action params context trace
      = some (Except.ok
          { id := Json.str "fallback"
            action := Json.str action
            status := Json.str "approved"
            decision := Json.str "approved"
            params := Json.obj (params.getD [])
            context := Json.obj (context.getD [])
            urgency := Json.str "normal"
            decided_by := Json.null
            decided_at := Json.null
            expires_at := Json.null
            created_at := Json.null
            updated_at := Json.null
            raw := Json.obj [("_fallback", Json.bool true)] }) := by
  constructor <;> simp [request_approval_safe, h1, h2, _fallback_request]

/-- Witness for C2: a connection error with no retry budget, under both
fallback behaviors. -/
theorem C2_connectivity_fallback_witness :
    request_approval_safe FallbackBehavior.deny 0 "deploy" none none
        (fun _ => Outcome.connError "refused")
      = some (Except.ok
          { id := Json.str "fallback"
            action := Json.str "deploy"
            status := Json.str "denied"
            decision := Json.str "denied"
            params := Json.obj []
            context := Json.obj []
            urgency := Json.str "normal"
            decided_by := Json.null
            decided_at := Json.null
            expires_at := Json.null
            created_at := Json.null
            updated_at := Json.null
            raw := Json.obj [("_fallback", Json.bool true)] }) ∧
    request_approval_safe FallbackBehavior.allow 0 "deploy" none none
        (fun _ => Outcome.connError "refused")
      = some (Except.ok
          { id := Json.str "fallback"
            action := Json.str "deploy"
            status := Json.str "approved"
            decision := Json.str "approved"
            params := Json.obj []
            context := Json.obj []
            urgency := Json.str "normal"
            decided_by := Json.null
            decided_at := Json.null
            expires_at := Json.null
            created_at := Json.null
            updated_at := Json.null
            raw := Json.obj [("_fallback", Json.bool true)] }) :=
  C2_connectivity_fallback 0 "deploy" none none (fun _ => Outcome.connError "refused")
    { message := Json.str "Connection failed: refused"
      status_code := none
      error_type := Json.null
      response_data := none
      is_connectivity_error := true }
    rfl rfl

/-- A transport outcome the retry policy treats as retryable: a response whose
status is in the retryable set, or a connection/timeout error. -/
def retryableOutcome (o : Outcome) : Prop :=
  (∃ s body, o = Outcome.response s body ∧ s ∈ _RETRYABLE_STATUS) ∨
  (∃ msg, o = Outcome.connError msg)

/-- Step lemma: a client-error status fails immediately. -/
theorem loop_client_error (backoffs : List ℚ) (trace : Nat → Outcome)
    (iters attempt : Nat) (lastExc : Option String) (s : Nat) (b : Json)
    (htr : trace attempt = Outcome.response s b) (hc : s ∈ _CLIENT_ERROR_STATUS) :
    loop backoffs trace (iters + 1) attempt lastExc =
      { result := RequestResult.err (http_error_result s b)
        attempts := attempt + 1
        sleeps := [] } := by
  simp only [loop, htr]
  rw [if_pos hc]

/-- Step lemma: a retryable status with retry budget left sleeps and retries. -/
theorem loop_retry_response (backoffs : List ℚ) (trace : Nat → Outcome)
    (iters attempt : Nat) (lastExc : Option String) (s : Nat) (b : Json)
    (htr : trace attempt = Outcome.response s b) (hs : s ∈ _RETRYABLE_STATUS)
    (hlt : attempt < backoffs.length) :
    loop backoffs trace (iters + 1) attempt lastExc =
      { result := (loop backoffs trace iters (attempt + 1) lastExc).result
        attempts := (loop backoffs trace iters (attempt + 1) lastExc).attempts
        sleeps := backoffs.getD attempt 0 ::
          (loop backoffs trace iters (attempt + 1) lastExc).sleeps } := by
  have hsc : s ∉ _CLIENT_ERROR_STATUS := by
    simp [_RETRYABLE_STATUS] at hs
    rcases hs with rfl | rfl | rfl | rfl <;> decide
  simp only [loop, htr]
  rw [if_neg hsc, if_pos ⟨hs, hlt⟩]

/-- Step lemma: a non-client, non-retried status of at least 400 fails with the
parsed error body. -/
theorem loop_http_error (backoffs : List ℚ) (trace : Nat → Outcome)
    (iters attempt : Nat) (lastExc : Option String) (s : Nat) (b : Json)
    (htr : trace attempt = Outcome.response s b) (hc : s ∉ _CLIENT_ERROR_STATUS)
    (hr : ¬(s ∈ _RETRYABLE_STATUS ∧ attempt < backoffs.length)) (h4 : 400 ≤ s) :
    loop backoffs trace (iters + 1) attempt lastExc =
      { result := RequestResult.err (http_error_result s b)
        attempts := attempt + 1
        sleeps := [] } := by
  simp only [loop, htr]
  rw [if_neg hc, if_neg hr, if_pos h4]

/-- Step lemma: a status below 400 succeeds with the decoded body. -/
theorem loop_ok (backoffs : List ℚ) (trace : Nat → Outcome)
    (iters attempt : Nat) (lastExc : Option String) (s : Nat) (b : Json)
    (htr : trace attempt = Outcome.response s b) (h4 : s < 400) :
    loop backoffs trace (iters + 1) attempt lastExc =
      { result := RequestResult.ok b, attempts := attempt + 1, sleeps := [] } := by
  have hsc : s ∉ _CLIENT_ERROR_STATUS := by
    simp [_CLIENT_ERROR_STATUS]
    omega
  have hnr : ¬(s ∈ _RETRYABLE_STATUS ∧ attempt < backoffs.length) := by
    rintro ⟨hmem, -⟩
    simp [_RETRYABLE_STATUS] at hmem
    omega
  simp only [loop, htr]
  rw [if_neg hsc, if_neg hnr, if_neg (by omega : ¬ 400 ≤ s)]

/-- Step lemma: a connection error with retry budget left sleeps and retries,
recording the exception as `last_exc`. -/
theorem loop_retry_conn (backoffs : List ℚ) (trace : Nat → Outcome)
    (iters attempt : Nat) (lastExc : Option String) (m : String)
    (htr : trace attempt = Outcome.connError m) (hlt : attempt < backoffs.length) :
    loop backoffs trace (iters + 1) attempt lastExc =
      { result := (loop backoffs trace iters (attempt + 1) (some m)).result
        attempts := (loop backoffs trace iters (attempt + 1) (some m)).attempts
        sleeps := backoffs.getD attempt 0 ::
          (loop backoffs trace iters (attempt + 1) (some m)).sleeps } := by
  simp only [loop, htr]
  rw [if_pos hlt]

/-- Step lemma: a connection error with no retry budget raises the
connectivity-flagged error. -/
theorem loop_conn_exhausted (backoffs : List ℚ) (trace : Nat → Outcome)
    (iters attempt : Nat) (lastExc : Option String) (m : String)
    (htr : trace attempt = Outcome.connError m) (hge : ¬ attempt < backoffs.length) :
    loop backoffs trace (iters + 1) attempt lastExc =
      { result := RequestResult.err
          { message := Json.str ("Connection failed: " ++ m)
            status_code := none
            error_type := Json.null
            response_data := none
            is_connectivity_error := true }
        attempts := attempt + 1
        sleeps := [] } := by
  simp only [loop, htr]
  rw [if_neg hge]

/-- Step lemma: any other exception is wrapped immediately. -/
theorem loop_other_error (backoffs : List ℚ) (trace : Nat → Outcome)
    (iters attempt : Nat) (lastExc : Option String) (m : String)
    (htr : trace attempt = Outcome.otherError m) :
    loop backoffs trace (iters + 1) attempt lastExc =
      { result := RequestResult.err
          { message := Json.str ("Unexpected error: " ++ m)
            status_code := none
            error_type := Json.null
            response_data := none
            is_connectivity_error := true }
        attempts := attempt + 1
        sleeps := [] } := by
  simp only [loop, htr]

/-- Claim C3: for every client with `max_retries ≥ 1`, if the transport
yields one retryable failure (a status in the retryable set, or a
connection/timeout error) followed by a success (status < 400), the operation
returns the success response's decoded JSON body and the transport observes
exactly 2 attempts. -/
theorem C3_retry_then_success (max_retries : Nat) (trace : Nat → Outcome)
    (s2 : Nat) (body2 : Json)
    (hn : 1 ≤ max_retries)
    (h0 : retryableOutcome (trace 0))
    (h1 : trace 1 = Outcome.response s2 body2) (h2 : s2 < 400) :
    (_request max_retries trace).result = RequestResult.ok body2 ∧
    (_request max_retries trace).attempts = 2 := by
  have hb : 0 < (_RETRY_BACKOFFS.take max_retries).length := by
    simp [_RETRY_BACKOFFS, List.length_take]
    omega
  obtain ⟨k, hk⟩ : ∃ k, (_RETRY_BACKOFFS.take max_retries).length = k + 1 :=
    ⟨_, (Nat.succ_pred_eq_of_pos hb).symm⟩
  unfold _request
  rw [hk]
  rcases h0 with ⟨s, b, htr, hs⟩ | ⟨m, htr⟩
  · rw [loop_retry_response _ trace (k + 1) 0 none s b htr hs hb,
      loop_ok _ trace k 1 none s2 body2 h1 h2]
    exact ⟨rfl, rfl⟩
  · rw [loop_retry_conn _ trace (k + 1) 0 none m htr hb,
      loop_ok _ trace k 1 (some m) s2 body2 h1 h2]
    exact ⟨rfl, rfl⟩

/-- Witness for C3: a 500 response followed by a 200 response with
`max_retries = 1`. -/
theorem C3_retry_then_success_witness :
    1 ≤ 1 ∧
    (_request 1 (fun i => if i = 0 then Outcome.response 500 (Json.obj [])
        else Outcome.response 200 (Json.obj [("id", Json.str "req_1")]))).result
      = RequestResult.ok (Json.obj [("id", Json.str "req_1")]) ∧
    (_request 1 (fun i => if i = 0 then Outcome.response 500 (Json.obj [])
        else Outcome.response 200 (Json.obj [("id", Json.str "req_1")]))).attempts = 2 :=
  ⟨by decide,
    C3_retry_then_success 1
      (fun i => if i = 0 then Outcome.response 500 (Json.obj [])
        else Outcome.response 200 (Json.obj [("id", Json.str "req_1")]))
      200 (Json.obj [("id", Json.str "req_1")]) (by decide)
      (Or.inl ⟨500, Json.obj [], rfl, by decide⟩) rfl (by decide)⟩

/-- Under persistently retryable outcomes the loop consumes every backoff,
observes one attempt per loop iteration actually entered, and sleeps each
remaining backoff once. -/
theorem loop_persistent (backoffs : List ℚ) (trace : Nat → Outcome)
    (h : ∀ i, retryableOutcome (trace i)) :
    ∀ (iters attempt : Nat) (lastExc : Option String),
      attempt + iters = backoffs.length + 1 →
      (loop backoffs trace iters attempt lastExc).attempts = backoffs.length + 1 ∧
      (loop backoffs trace iters attempt lastExc).sleeps = backoffs.drop attempt := by
  intro iters
  induction iters with
  | zero =>
    intro attempt lastExc hinv
    have hle : backoffs.length ≤ attempt := by omega
    cases lastExc <;>
      exact ⟨by simp [loop]; omega, by simp [loop, List.drop_eq_nil_of_le hle]⟩
  | succ n ih =>
    intro attempt lastExc hinv
    rcases Nat.lt_or_ge attempt backoffs.length with hlt | hge
    · rcases h attempt with ⟨s, b, htr, hs⟩ | ⟨m, htr⟩
      · rw [loop_retry_response backoffs trace n attempt lastExc s b htr hs hlt]
        obtain ⟨ha2, hs2⟩ := ih (attempt + 1) lastExc (by omega)
        refine ⟨ha2, ?_⟩
        show backoffs.getD attempt 0 :: (loop backoffs trace n (attempt + 1) lastExc).sleeps
          = backoffs.drop attempt
        rw [hs2, List.getD_eq_getElem backoffs 0 hlt]
        exact (List.drop_eq_getElem_cons hlt).symm
      · rw [loop_retry_conn backoffs trace n attempt lastExc m htr hlt]
        obtain ⟨ha2, hs2⟩ := ih (attempt + 1) (some m) (by omega)
        refine ⟨ha2, ?_⟩
        show backoffs.getD attempt 0 :: (loop backoffs trace n (attempt + 1) (some m)).sleeps
          = backoffs.drop attempt
        rw [hs2, List.getD_eq_getElem backoffs 0 hlt]
        exact (List.drop_eq_getElem_cons hlt).symm
    · have heq : attempt = backoffs.length := by omega
      rcases h attempt with ⟨s, b, htr, hs⟩ | ⟨m, htr⟩
      · have hsc : s ∉ _CLIENT_ERROR_STATUS := by
          simp [_RETRYABLE_STATUS] at hs
          rcases hs with rfl | rfl | rfl | rfl <;> decide
        have h4 : 400 ≤ s := by
          simp [_RETRYABLE_STATUS] at hs
          rcases hs with rfl | rfl | rfl | rfl <;> decide
        rw [loop_http_error backoffs trace n attempt lastExc s b htr hsc
          (fun hx => absurd hx.2 (not_lt.mpr hge)) h4]
        exact ⟨by simp; omega, by simp [heq, List.drop_length]⟩
      · rw [loop_conn_exhausted backoffs trace n attempt lastExc m htr (not_lt.mpr hge)]
        exact ⟨by simp; omega, by simp [heq, List.drop_length]⟩

/-- Claim C4 (amended): for every configured max-retry count `n`, the backoff
sequence used is the fixed monotonically increasing sequence
`[0.5, 1.0, 2.0]` truncated to `n` entries, and under persistently retryable
outcomes the total number of transport attempts equals `1 + min n 3` (not
`1 + n`: the backoff list has only three entries, so the retry count is
capped at 3). -/
theorem C4_backoff_truncation_amended (n : Nat) (trace : Nat → Outcome)
    (h : ∀ i, retryableOutcome (trace i)) :
    (_request n trace).sleeps = List.take n _RETRY_BACKOFFS ∧
    List.Pairwise (· < ·) (List.take n _RETRY_BACKOFFS) ∧
    (_request n trace).attempts = 1 + min n 3 := by
  obtain ⟨ha, hs⟩ := loop_persistent (_RETRY_BACKOFFS.take n) trace h
    ((_RETRY_BACKOFFS.take n).length + 1) 0 none (by omega)
  refine ⟨?_, ?_, ?_⟩
  · rw [_request] at *
    simpa using hs
  · exact List.Pairwise.sublist (List.take_sublist n _RETRY_BACKOFFS)
      (by norm_num [_RETRY_BACKOFFS])
  · rw [_request] at *
    rw [ha, List.length_take]
    simp [_RETRY_BACKOFFS]
    omega

/-- Witness for C4 (amended): persistent connection errors with
`max_retries = 2`. -/
theorem C4_backoff_truncation_amended_witness :
    (_request 2 (fun _ => Outcome.connError "refused")).sleeps
      = List.take 2 _RETRY_BACKOFFS ∧
    List.Pairwise (· < ·) (List.take 2 _RETRY_BACKOFFS) ∧
    (_request 2 (fun _ => Outcome.connError "refused")).attempts = 1 + min 2 3 :=
  C4_backoff_truncation_amended 2 (fun _ => Outcome.connError "refused")
    (fun _ => Or.inr ⟨"refused", rfl⟩)

/-- Counterexample to C4 as stated: with `max_retries = 4` and every attempt
returning a retryable 500 status, the transport observes 4 attempts, not
`1 + 4 = 5`. -/
theorem C4_attempts_counterexample :
    (_request 4 (fun _ => Outcome.response 500 (Json.obj []))).attempts = 4 ∧
    (_request 4 (fun _ => Outcome.response 500 (Json.obj []))).attempts ≠ 1 + 4 :=
  ⟨rfl, by decide⟩

/-- The error produced by parsing a failing response satisfies the
flag-iff-no-status invariant: the normal parse carries the status with the
flag clear, the wrapped `AttributeError` carries no status with the flag
set. -/
theorem http_error_flag (s : Nat) (b : Json) :
    ((http_error_result s b).is_connectivity_error = true ↔
      (http_error_result s b).status_code = none) := by
  cases h : error_info_of b <;> simp [http_error_result, h, attribute_error_wrap]

/-- Every error the retry loop produces has the connectivity flag set exactly
when it carries no status code. -/
theorem loop_err_flag (backoffs : List ℚ) (trace : Nat → Outcome) :
    ∀ (iters attempt : Nat) (lastExc : Option String) (e : AgentGateError),
      (loop backoffs trace iters attempt lastExc).result = RequestResult.err e →
      (e.is_connectivity_error = true ↔ e.status_code = none) := by
  intro iters
  induction iters with
  | zero =>
    intro attempt lastExc e h
    cases lastExc with
    | none => simp [loop] at h
    | some m =>
      simp [loop] at h
      rw [← h]
      simp
  | succ n ih =>
    intro attempt lastExc e h
    cases htr : trace attempt with
    | response s b =>
      by_cases hc : s ∈ _CLIENT_ERROR_STATUS
      · rw [loop_client_error backoffs trace n attempt lastExc s b htr hc] at h
        simp at h
        rw [← h]
        exact http_error_flag s b
      · by_cases hr : s ∈ _RETRYABLE_STATUS ∧ attempt < backoffs.length
        · rw [loop_retry_response backoffs trace n attempt lastExc s b htr hr.1 hr.2] at h
          exact ih (attempt + 1) lastExc e h
        · by_cases h4 : 400 ≤ s
          · rw [loop_http_error backoffs trace n attempt lastExc s b htr hc hr h4] at h
            simp at h
            rw [← h]
            exact http_error_flag s b
          · rw [loop_ok backoffs trace n attempt lastExc s b htr (by omega)] at h
            simp at h
    | connError m =>
      by_cases hlt : attempt < backoffs.length
      · rw [loop_retry_conn backoffs trace n attempt lastExc m htr hlt] at h
        exact ih (attempt + 1) (some m) e h
      · rw [loop_conn_exhausted backoffs trace n attempt lastExc m htr hlt] at h
        simp at h
        rw [← h]
        simp
    | otherError m =>
      rw [loop_other_error backoffs trace n attempt lastExc m htr] at h
      simp at h
      rw [← h]
      simp

/-- Claim C6 (amended): for every error the client raises, the
connectivity-error flag is true exactly when the error carries no HTTP status
code.  Errors built by parsing a 4xx/5xx response carry the status with the
flag clear; errors raised with no response — and unexpected processing
failures, which carry no status — have the flag set. -/
theorem C6_flag_iff_no_status (max_retries : Nat) (trace : Nat → Outcome)
    (e : AgentGateError)
    (h : (_request max_retries trace).result = RequestResult.err e) :
    (e.is_connectivity_error = true ↔ e.status_code = none) :=
  loop_err_flag (_RETRY_BACKOFFS.take max_retries) trace
    ((_RETRY_BACKOFFS.take max_retries).length + 1) 0 none e h

/-- Witness for C6 (amended): the error produced by a connection failure with
no retry budget. -/
theorem C6_flag_iff_no_status_witness :
    (_request 0 (fun _ => Outcome.connError "refused")).result
      = RequestResult.err
        { message := Json.str "Connection failed: refused"
          status_code := none
          error_type := Json.null
          response_data := none
          is_connectivity_error := true } ∧
    (({ message := Json.str "Connection failed: refused"
        status_code := none
        error_type := Json.null
        response_data := none
        is_connectivity_error := true } : AgentGateError).is_connectivity_error = true ↔
      ({ message := Json.str "Connection failed: refused"
         status_code := none
         error_type := Json.null
         response_data := none
         is_connectivity_error := true } : AgentGateError).status_code = none) :=
  ⟨rfl, C6_flag_iff_no_status 0 (fun _ => Outcome.connError "refused") _ rfl⟩

/-- Counterexample to C6 as stated (flag true iff no HTTP response was
obtained): a 400 response whose body binds `"error"` to the non-mapping
`"internal"` makes the error-body parse raise `AttributeError`, which the
final `except Exception` wraps as a connectivity-flagged error even though an
HTTP response was obtained on the raising attempt. -/
theorem C6_flag_iff_counterexample :
    ¬ (∀ (max_retries : Nat) (trace : Nat → Outcome) (e : AgentGateError),
        (_request max_retries trace).result = RequestResult.err e →
        (e.is_connectivity_error = true ↔
          ∀ s body,
            trace ((_request max_retries trace).attempts - 1) ≠ Outcome.response s body)) := by
  intro h
  have h2 := h 0 (fun _ => Outcome.response 400 (Json.obj [("error", Json.str "internal")]))
    attribute_error_wrap rfl
  exact (h2.mp rfl) 400 (Json.obj [("error", Json.str "internal")]) rfl

/-- Evaluation for C1 at the failing input: a 401 response whose body binds
`"error"` to the non-mapping `"internal"`.  `_request` raises after one
attempt, but the raised error is the connectivity-flagged `AttributeError`
wrap carrying no status code, so `request_approval_safe` returns the
fallback record (here: approved) instead of re-raising — contradicting the
claim that a 401 always propagates as a non-fallback error carrying status
401. -/
theorem C1_client_error_body_bug :
    (_request 3 (fun _ => Outcome.response 401 (Json.obj [("error", Json.str "internal")]))).result
      = RequestResult.err attribute_error_wrap ∧
    (_request 3 (fun _ => Outcome.response 401 (Json.obj [("error", Json.str "internal")]))).attempts
      = 1 ∧
    attribute_error_wrap.status_code = none ∧
    attribute_error_wrap.is_connectivity_error = true ∧
    request_approval_safe FallbackBehavior.allow 3 "deploy" none none
        (fun _ => Outcome.response 401 (Json.obj [("error", Json.str "internal")]))
      = some (Except.ok
          { id := Json.str "fallback"
            action := Json.str "deploy"
            status := Json.str "approved"
            decision := Json.str "approved"
            params := Json.obj []
            context := Json.obj []
            urgency := Json.str "normal"
            decided_by := Json.null
            decided_at := Json.null
            expires_at := Json.null
            created_at := Json.null
            updated_at := Json.null
            raw := Json.obj [("_fallback", Json.bool true)] }) :=
  ⟨rfl, rfl, rfl, rfl, rfl⟩

/-- Evaluation for C5 at the failing input: retry budget 0 and a 500
response whose body binds `"error"` to the non-mapping `"internal"`.  The
final attempt does fall through to normal response handling, but parsing the
error body raises `AttributeError`, so the raised error is
connectivity-flagged and carries no status code — contradicting the claim
that the error carries status 500 with the flag clear. -/
theorem C5_exhausted_fallthrough_bug :
    (_request 0 (fun _ => Outcome.response 500 (Json.obj [("error", Json.str "internal")]))).result
      = RequestResult.err attribute_error_wrap ∧
    (_request 0 (fun _ => Outcome.response 500 (Json.obj [("error", Json.str "internal")]))).attempts
      = 1 ∧
    attribute_error_wrap.status_code = none ∧
    attribute_error_wrap.is_connectivity_error = true :=
  ⟨rfl, rfl, rfl, rfl⟩
